import Mathlib

/-!
Shallow embedding of the fleet driver gamification backend (src/server.js).

The server keeps all state in a JS object `driverScores` mapping driver ids to
mutable per-driver records.  We embed that object as an insertion-ordered
association list of `DriverRecord`s (JS objects enumerate string keys in
insertion order, which is what `Object.values` returns), JS numbers as `Int`,
and `new Date()` timestamps as an ambient `now : Nat` parameter supplied to
each operation.  The mutable global `scoringConfig.basePoints` is likewise an
explicit parameter of every operation that reads it.
-/

namespace Gamification

/-- One entry of `driver.events`, built by `logScoringEvent`
(src/server.js:232-239). `details` is an opaque JSON-object payload, embedded
as an association list. -/
structure EventLog where
  timestamp : Nat
  category : String
  event : String
  points : Int
  details : List (String × String)
  scoreAfter : Int
deriving DecidableEq, Repr

/-- One entry of `driver.scoreHistory`, pushed by the reset route
(src/server.js:295-300). -/
structure ScoreHistoryEntry where
  period : String
  finalScore : Int
  endDate : Nat
  eventsCount : Nat
deriving DecidableEq, Repr

/-- The per-driver record stored in `driverScores` (src/server.js:218-224). -/
structure DriverRecord where
  driverId : String
  currentScore : Int
  lastReset : Nat
  scoreHistory : List ScoreHistoryEntry
  events : List EventLog
deriving DecidableEq, Repr

/-- The `driverScores` object: driver records in key-insertion order. -/
abbrev Store := List DriverRecord

/-- `driverScores[driverId]`: the record whose key is `driverId`, if any. -/
def lookupDriver (store : Store) (driverId : String) : Option DriverRecord :=
  store.find? (fun r => r.driverId == driverId)

/-- `driverScores[driverId] = rec`: assigning an existing key keeps its
position, a fresh key is appended (JS insertion-order semantics). -/
def setDriver (store : Store) (driverId : String) (rec : DriverRecord) : Store :=
  if (store.find? (fun r => r.driverId == driverId)).isSome then
    store.map (fun r => if r.driverId == driverId then rec else r)
  else
    store ++ [rec]

/-- Embedding of `initializeDriver` (src/server.js:216-227): if the driver has
no record yet, store a fresh one with `currentScore = scoringConfig.basePoints`,
`lastReset = new Date()`, empty history and empty events; return the (new)
store together with the driver's record. -/
def initializeDriver (basePoints : Int) (now : Nat) (store : Store)
    (driverId : String) : Store × DriverRecord :=
  match lookupDriver store driverId with
  | some d => (store, d)
  | none =>
      let d : DriverRecord :=
        { driverId := driverId, currentScore := basePoints, lastReset := now,
          scoreHistory := [], events := [] }
      (store ++ [d], d)

/-- The `events.slice(-100)` truncation of `logScoringEvent`
(src/server.js:244-247): keep only the last 100 events when more than 100 are
stored. -/
def truncate100 (events : List EventLog) : List EventLog :=
  if events.length > 100 then events.drop (events.length - 100) else events

/-- Embedding of `logScoringEvent` (src/server.js:230-250): initialize the
driver, build the event with `scoreAfter = driver.currentScore + points`, push
it, add `points` to the current score, and truncate the log to the last 100
events.  Returns the new store and the event. -/
def logScoringEvent (basePoints : Int) (now : Nat) (store : Store)
    (driverId category event : String) (points : Int)
    (details : List (String × String)) : Store × EventLog :=
  let init := initializeDriver basePoints now store driverId
  let driver := init.2
  let eventLog : EventLog :=
    { timestamp := now, category := category, event := event, points := points,
      details := details, scoreAfter := driver.currentScore + points }
  let driver' : DriverRecord :=
    { driver with
      events := truncate100 (driver.events ++ [eventLog]),
      currentScore := driver.currentScore + points }
  (setDriver init.1 driverId driver', eventLog)

/-- Embedding of `POST /api/driver/:driverId/reset` (src/server.js:290-308):
initialize the driver (creating it when absent), archive the current score into
`scoreHistory`, then reset `currentScore` to the base points, clear the event
list and stamp `lastReset`.  `period` is the `"YYYY-M"` string the route builds
from the current date; `now` is that date's timestamp.  Returns the new store
and the driver record sent back in the response. -/
def resetDriver (basePoints : Int) (now : Nat) (period : String) (store : Store)
    (driverId : String) : Store × DriverRecord :=
  let init := initializeDriver basePoints now store driverId
  let driver := init.2
  let entry : ScoreHistoryEntry :=
    { period := period, finalScore := driver.currentScore, endDate := now,
      eventsCount := driver.events.length }
  let driver' : DriverRecord :=
    { driver with
      scoreHistory := driver.scoreHistory ++ [entry],
      currentScore := basePoints, lastReset := now, events := [] }
  (setDriver init.1 driverId driver', driver')

/-- Embedding of `GET /api/driver/:driverId/score` (src/server.js:278-282):
the route just calls `initializeDriver` and serializes the record, so reading a
score can grow the store. -/
def getScoreRoute (basePoints : Int) (now : Nat) (store : Store)
    (driverId : String) : Store × DriverRecord :=
  initializeDriver basePoints now store driverId

/-- Embedding of `GET /api/drivers/scores` (src/server.js:285-287):
`Object.values(driverScores)` in insertion order. -/
def listAllScores (store : Store) : List DriverRecord :=
  store

/-- The ordering imposed by the leaderboard comparator
`(a, b) => b.currentScore - a.currentScore` (src/server.js:466): `a` may come
before `b` exactly when `b`'s score does not exceed `a`'s. -/
def scoreGE (a b : DriverRecord) : Prop :=
  b.currentScore ≤ a.currentScore

instance : DecidableRel scoreGE := fun a b =>
  inferInstanceAs (Decidable (b.currentScore ≤ a.currentScore))

instance : IsTotal DriverRecord scoreGE :=
  ⟨fun a b => le_total b.currentScore a.currentScore⟩

instance : IsTrans DriverRecord scoreGE :=
  ⟨fun _ _ _ h h' => le_trans h' h⟩

/-- The `Object.values(driverScores).sort(...)` step of the leaderboard
(src/server.js:465-466).  `Array.prototype.sort` is a stable sort, and a
stable sort for a given comparator and input order is unique, so insertion
sort under the comparator's ordering computes exactly its result. -/
def sortDriverScores (store : Store) : List DriverRecord :=
  store.insertionSort scoreGE

/-- One row of the leaderboard response (src/server.js:467-473). -/
structure LeaderboardEntry where
  rank : Nat
  driverId : String
  currentScore : Int
  lastReset : Nat
  eventsCount : Nat
deriving DecidableEq, Repr

/-- The `.map((driver, index) => ({rank: index + 1, ...}))` step
(src/server.js:467-473), with the running index made explicit. -/
def rankEntries : Nat → List DriverRecord → List LeaderboardEntry
  | _, [] => []
  | i, d :: ds =>
      { rank := i + 1, driverId := d.driverId, currentScore := d.currentScore,
        lastReset := d.lastReset, eventsCount := d.events.length }
        :: rankEntries (i + 1) ds

/-- Embedding of `GET /api/leaderboard` (src/server.js:464-476). -/
def leaderboardOf (store : Store) : List LeaderboardEntry :=
  rankEntries 0 (sortDriverScores store)

/-- The `gpsMonitoring` section of `scoringConfig` (src/server.js:12-17). -/
structure GpsMonitoringConfig where
  speedWithinLimit : Int
  speedExceedingBy30 : Int
  smoothAcceleration : Int
  severeAcceleration : Int
deriving DecidableEq, Repr

/-- The `driverMonitoring` section of `scoringConfig` (src/server.js:18-23). -/
structure DriverMonitoringConfig where
  fallingAsleep : Int
  mobilePhoneUse : Int
  maintainingFocus : Int
  unauthorizedDriver : Int
deriving DecidableEq, Repr

/-- The `safetyEmergency` section of `scoringConfig` (src/server.js:24-29). -/
structure SafetyEmergencyConfig where
  properEmergencyResponse : Int
  atFaultAccident : Int
  collisionAvoidance : Int
  ignoringFatigueAlerts : Int
deriving DecidableEq, Repr

/-- The `compliance` section of `scoringConfig` (src/server.js:30-35). -/
structure ComplianceConfig where
  preTrip : Int
  expiredLicense : Int
  cleanRecord : Int
  duiDwi : Int
deriving DecidableEq, Repr

/-- The `achievements` section of `scoringConfig` (src/server.js:36-40). -/
structure AchievementsConfig where
  oneYearAccidentFree : Int
  bestFuelEconomy : Int
  safetyChampion : Int
deriving DecidableEq, Repr

/-- The mutable global `scoringConfig` (src/server.js:11-43).  `customRules`
maps rule keys to manager-created rule data; no implemented route ever writes
it, so its entries are embedded as key/points pairs. -/
structure ScoringConfig where
  gpsMonitoring : GpsMonitoringConfig
  driverMonitoring : DriverMonitoringConfig
  safetyEmergency : SafetyEmergencyConfig
  compliance : ComplianceConfig
  achievements : AchievementsConfig
  customRules : List (String × Int)
  basePoints : Int
deriving DecidableEq, Repr

/-- The initial value of `scoringConfig` (src/server.js:11-43). -/
def defaultScoringConfig : ScoringConfig :=
  { gpsMonitoring :=
      { speedWithinLimit := 2, speedExceedingBy30 := -10,
        smoothAcceleration := 1, severeAcceleration := -4 },
    driverMonitoring :=
      { fallingAsleep := -10, mobilePhoneUse := -3, maintainingFocus := 2,
        unauthorizedDriver := -15 },
    safetyEmergency :=
      { properEmergencyResponse := 5, atFaultAccident := -15,
        collisionAvoidance := 8, ignoringFatigueAlerts := -8 },
    compliance :=
      { preTrip := 3, expiredLicense := -15, cleanRecord := 5, duiDwi := -30 },
    achievements :=
      { oneYearAccidentFree := 30, bestFuelEconomy := 15, safetyChampion := 10 },
    customRules := [],
    basePoints := 0 }

/-- The request body of `PUT /api/scoring-config`: each top-level key of the
JSON body either absent (`none`) or present.  A present section is a JSON
object and hence truthy in the route's `&&` chain; `basePoints` is a number,
truthy exactly when nonzero. -/
structure ConfigRequest where
  gpsMonitoring : Option GpsMonitoringConfig
  driverMonitoring : Option DriverMonitoringConfig
  safetyEmergency : Option SafetyEmergencyConfig
  compliance : Option ComplianceConfig
  achievements : Option AchievementsConfig
  customRules : Option (List (String × Int))
  basePoints : Option Int
deriving DecidableEq, Repr

/-- JS truthiness of the number field `newConfig.basePoints`: an absent field
is `undefined` (falsy) and `0` is falsy. -/
def jsTruthyInt : Option Int → Bool
  | none => false
  | some n => !(n == 0)

/-- Embedding of `PUT /api/scoring-config` (src/server.js:260-275): when all
five category sections and a truthy `basePoints` are supplied, replace the
config by the shallow spread `{...scoringConfig, ...newConfig}` and answer
success (`true`); otherwise leave it unchanged and answer a 400 (`false`). -/
def updateScoringConfig (config : ScoringConfig) (req : ConfigRequest) :
    ScoringConfig × Bool :=
  if req.gpsMonitoring.isSome && req.driverMonitoring.isSome
      && req.safetyEmergency.isSome && req.compliance.isSome
      && req.achievements.isSome && jsTruthyInt req.basePoints then
    ({ gpsMonitoring := req.gpsMonitoring.getD config.gpsMonitoring,
       driverMonitoring := req.driverMonitoring.getD config.driverMonitoring,
       safetyEmergency := req.safetyEmergency.getD config.safetyEmergency,
       compliance := req.compliance.getD config.compliance,
       achievements := req.achievements.getD config.achievements,
       customRules := req.customRules.getD config.customRules,
       basePoints := req.basePoints.getD config.basePoints }, true)
  else
    (config, false)

/-- The request body of `POST /api/scoring/custom` (src/server.js:450): each
destructured field either absent (`undefined`, `none`) or present. -/
structure CustomScoringRequest where
  driverId : Option String
  category : Option String
  event : Option String
  points : Option Int
  details : Option (List (String × String))
deriving DecidableEq, Repr

/-- JS falsiness of a destructured string field: `undefined` (absent) and the
empty string are falsy, every other string is truthy. -/
def jsFalsyStr : Option String → Bool
  | none => true
  | some s => s == ""

/-- Embedding of `POST /api/scoring/custom` (src/server.js:449-461): reject
with a 400 (`none`, store untouched) when `!driverId || !category || !event ||
points === undefined`; otherwise append via `logScoringEvent` and return the
event. -/
def customScoringRoute (basePoints : Int) (now : Nat) (store : Store)
    (req : CustomScoringRequest) : Store × Option EventLog :=
  if jsFalsyStr req.driverId || jsFalsyStr req.category || jsFalsyStr req.event
      || req.points.isNone then
    (store, none)
  else
    let r := logScoringEvent basePoints now store (req.driverId.getD "")
      (req.category.getD "") (req.event.getD "") (req.points.getD 0)
      (req.details.getD [])
    (r.1, some r.2)

/-- One state-changing request against the scoring store, timestamps made
explicit.  `score` covers `logScoringEvent` however it is reached (the
category-specific routes and the validated custom route), `reset` the reset
route, `read` the lazily-materializing score read. -/
inductive Op where
  | score (now : Nat) (driverId category event : String) (points : Int)
      (details : List (String × String))
  | reset (now : Nat) (period : String) (driverId : String)
  | read (now : Nat) (driverId : String)
deriving DecidableEq, Repr

/-- Effect of one request on `driverScores`, with the base-points
configuration held fixed at `basePoints`. -/
def stepOp (basePoints : Int) (store : Store) : Op → Store
  | .score now driverId category event points details =>
      (logScoringEvent basePoints now store driverId category event points details).1
  | .reset now period driverId => (resetDriver basePoints now period store driverId).1
  | .read now driverId => (initializeDriver basePoints now store driverId).1

/-- The store after serving a sequence of requests from the initial empty
`driverScores`. -/
def runOps (basePoints : Int) (ops : List Op) : Store :=
  ops.foldl (stepOp basePoints) []

/-- Sum of the point deltas of a stored event list. -/
def sumPoints (events : List EventLog) : Int :=
  (events.map EventLog.points).sum

/-- The spec's score-consistency invariant, written from the spec's words for
comparison with the code: every stored driver's `currentScore` equals the base
points plus the sum of the point deltas of the driver's stored events. -/
def scoreConsistentSpec (basePoints : Int) (store : Store) : Bool :=
  store.all (fun d => d.currentScore == basePoints + sumPoints d.events)

/-! ### Store lemmas -/

theorem lookupDriver_driverId {store : Store} {driverId : String} {d : DriverRecord}
    (h : lookupDriver store driverId = some d) : d.driverId = driverId := by
  have hp := List.find?_some h
  simpa using hp

theorem mem_of_lookupDriver {store : Store} {driverId : String} {d : DriverRecord}
    (h : lookupDriver store driverId = some d) : d ∈ store :=
  List.mem_of_find?_eq_some h

theorem find?_map_replace (driverId : String) (r : DriverRecord)
    (hr : r.driverId = driverId) :
    ∀ l : List DriverRecord,
      (l.find? (fun x => x.driverId == driverId)).isSome = true →
      (l.map (fun x => if x.driverId == driverId then r else x)).find?
          (fun x => x.driverId == driverId) = some r
  | [], h => by simp at h
  | x :: xs, h => by
    rw [List.map_cons]
    by_cases hx : (x.driverId == driverId) = true
    · rw [if_pos hx,
        @List.find?_cons_of_pos _ (fun y => y.driverId == driverId) r _
          (beq_iff_eq.mpr hr)]
    · rw [if_neg hx,
        @List.find?_cons_of_neg _ (fun y => y.driverId == driverId) x _ hx]
      apply find?_map_replace driverId r hr xs
      rw [@List.find?_cons_of_neg _ (fun y => y.driverId == driverId) x xs hx] at h
      exact h

theorem lookupDriver_setDriver_self (store : Store) (driverId : String)
    (r : DriverRecord) (hr : r.driverId = driverId) :
    lookupDriver (setDriver store driverId r) driverId = some r := by
  unfold setDriver
  split
  case isTrue h => exact find?_map_replace driverId r hr store h
  case isFalse h =>
    have hnone : store.find? (fun x => x.driverId == driverId) = none := by
      cases hfind : store.find? (fun x => x.driverId == driverId) <;>
        simp [hfind] at h ⊢
    simp [lookupDriver, List.find?_append, hnone, hr]

theorem mem_setDriver {store : Store} {driverId : String} {r x : DriverRecord}
    (h : x ∈ setDriver store driverId r) : x ∈ store ∨ x = r := by
  unfold setDriver at h
  split at h
  · rcases List.mem_map.mp h with ⟨y, hy, hyx⟩
    by_cases hyid : (y.driverId == driverId) = true
    · right
      rw [if_pos hyid] at hyx
      exact hyx.symm
    · left
      rw [if_neg hyid] at hyx
      exact hyx ▸ hy
  · rcases List.mem_append.mp h with h | h
    · exact .inl h
    · simp at h
      exact .inr h

theorem setDriver_append_of_absent {store : Store} {driverId : String}
    (fresh r : DriverRecord)
    (h : store.find? (fun x => x.driverId == driverId) = none)
    (hf : fresh.driverId = driverId) :
    setDriver (store ++ [fresh]) driverId r = store ++ [r] := by
  have hnomem : ∀ x ∈ store, ¬ (x.driverId == driverId) = true :=
    List.find?_eq_none.mp h
  unfold setDriver
  rw [if_pos]
  · rw [List.map_append]
    congr 1
    · calc store.map (fun x => if x.driverId == driverId then r else x)
          = store.map id := List.map_congr_left (fun x hx => if_neg (hnomem x hx))
        _ = store := List.map_id store
    · simp [hf]
  · simp [List.find?_append, h, hf]

/-! ### `initializeDriver` lemmas -/

theorem initializeDriver_of_found {basePoints : Int} {now : Nat} {store : Store}
    {driverId : String} {d : DriverRecord} (h : lookupDriver store driverId = some d) :
    initializeDriver basePoints now store driverId = (store, d) := by
  simp [initializeDriver, h]

theorem initializeDriver_of_absent {basePoints : Int} {now : Nat} {store : Store}
    {driverId : String} (h : lookupDriver store driverId = none) :
    initializeDriver basePoints now store driverId =
      (store ++ [⟨driverId, basePoints, now, [], []⟩],
       ⟨driverId, basePoints, now, [], []⟩) := by
  simp [initializeDriver, h]

theorem initializeDriver_snd_driverId (basePoints : Int) (now : Nat) (store : Store)
    (driverId : String) :
    (initializeDriver basePoints now store driverId).2.driverId = driverId := by
  cases h : lookupDriver store driverId with
  | some d =>
      rw [initializeDriver_of_found h]
      exact lookupDriver_driverId h
  | none => rw [initializeDriver_of_absent h]

theorem lookupDriver_initializeDriver_self (basePoints : Int) (now : Nat)
    (store : Store) (driverId : String) :
    lookupDriver (initializeDriver basePoints now store driverId).1 driverId =
      some (initializeDriver basePoints now store driverId).2 := by
  cases h : lookupDriver store driverId with
  | some d => rw [initializeDriver_of_found h]; exact h
  | none =>
      rw [initializeDriver_of_absent h]
      have h' : store.find? (fun x => x.driverId == driverId) = none := h
      simp [lookupDriver, List.find?_append, h']

theorem mem_initializeDriver {basePoints : Int} {now : Nat} {store : Store}
    {driverId : String} {x : DriverRecord}
    (h : x ∈ (initializeDriver basePoints now store driverId).1) :
    x ∈ store ∨ x = (initializeDriver basePoints now store driverId).2 := by
  cases hl : lookupDriver store driverId with
  | some d =>
      rw [initializeDriver_of_found hl] at h
      exact .inl h
  | none =>
      rw [initializeDriver_of_absent hl] at h ⊢
      simpa using h

/-! ### `truncate100` lemmas -/

theorem truncate100_length (l : List EventLog) :
    (truncate100 l).length = min l.length 100 := by
  unfold truncate100
  split <;> simp [List.length_drop] <;> omega

theorem truncate100_of_le {l : List EventLog} (h : l.length ≤ 100) :
    truncate100 l = l := by
  unfold truncate100
  rw [if_neg]
  omega

theorem self_mem_truncate100 (l : List EventLog) (e : EventLog) :
    e ∈ truncate100 (l ++ [e]) := by
  unfold truncate100
  split
  case isTrue h =>
    rw [List.drop_append_of_le_length
      (by simp only [List.length_append, List.length_cons, List.length_nil] at h ⊢; omega)]
    exact List.mem_append_right _ (by simp)
  case isFalse h => exact List.mem_append_right _ (by simp)

/-! ### Operation spec lemmas -/

theorem logScoringEvent_spec (basePoints : Int) (now : Nat) (store : Store)
    (driverId category event : String) (points : Int)
    (details : List (String × String)) :
    (logScoringEvent basePoints now store driverId category event points details).2 =
      { timestamp := now, category := category, event := event, points := points,
        details := details,
        scoreAfter :=
          (initializeDriver basePoints now store driverId).2.currentScore + points } ∧
    lookupDriver
        (logScoringEvent basePoints now store driverId category event points details).1
        driverId =
      some { (initializeDriver basePoints now store driverId).2 with
             events := truncate100
               ((initializeDriver basePoints now store driverId).2.events ++
                [(logScoringEvent basePoints now store driverId category event points
                    details).2]),
             currentScore :=
               (initializeDriver basePoints now store driverId).2.currentScore + points } := by
  constructor
  · rfl
  · exact lookupDriver_setDriver_self _ _ _
      (initializeDriver_snd_driverId basePoints now store driverId)

theorem resetDriver_spec (basePoints : Int) (now : Nat) (period : String)
    (store : Store) (driverId : String) :
    (resetDriver basePoints now period store driverId).2 =
      { (initializeDriver basePoints now store driverId).2 with
        scoreHistory :=
          (initializeDriver basePoints now store driverId).2.scoreHistory ++
            [⟨period, (initializeDriver basePoints now store driverId).2.currentScore,
              now, (initializeDriver basePoints now store driverId).2.events.length⟩],
        currentScore := basePoints, lastReset := now, events := [] } ∧
    lookupDriver (resetDriver basePoints now period store driverId).1 driverId =
      some (resetDriver basePoints now period store driverId).2 := by
  constructor
  · rfl
  · exact lookupDriver_setDriver_self _ _ _
      (initializeDriver_snd_driverId basePoints now store driverId)

/-! ### The score-consistency invariant -/

theorem sumPoints_append (l : List EventLog) (e : EventLog) :
    sumPoints (l ++ [e]) = sumPoints l + e.points := by
  simp [sumPoints]

/-- Inductive state invariant of a driver record when the base-points
configuration is held fixed: the stored event list never exceeds the cap of
100, and while it is strictly below the cap (so no truncation has happened
since the last reset) the current score is the base points plus the sum of the
stored deltas. -/
def ScoreInv (basePoints : Int) (d : DriverRecord) : Prop :=
  d.events.length ≤ 100 ∧
    (d.events.length < 100 → d.currentScore = basePoints + sumPoints d.events)

theorem scoreInv_fresh (basePoints : Int) (now : Nat) (driverId : String) :
    ScoreInv basePoints ⟨driverId, basePoints, now, [], []⟩ := by
  constructor
  · simp
  · intro _
    simp [sumPoints]

theorem scoreInv_reset (basePoints : Int) (d : DriverRecord)
    (hist : List ScoreHistoryEntry) (now : Nat) :
    ScoreInv basePoints
      { d with
        scoreHistory := hist, currentScore := basePoints,
        lastReset := now, events := [] } := by
  constructor
  · simp
  · intro _
    simp [sumPoints]

theorem scoreInv_append (basePoints : Int) {d : DriverRecord}
    (hd : ScoreInv basePoints d) (e : EventLog) :
    ScoreInv basePoints
      { d with
        events := truncate100 (d.events ++ [e]),
        currentScore := d.currentScore + e.points } := by
  obtain ⟨_, hsum⟩ := hd
  constructor
  · show (truncate100 (d.events ++ [e])).length ≤ 100
    rw [truncate100_length]
    omega
  · intro hlt
    show d.currentScore + e.points = basePoints + sumPoints (truncate100 (d.events ++ [e]))
    rw [truncate100_length, List.length_append, List.length_cons, List.length_nil] at hlt
    have hle : (d.events ++ [e]).length ≤ 100 := by
      rw [List.length_append, List.length_cons, List.length_nil]
      omega
    rw [truncate100_of_le hle, sumPoints_append, hsum (by omega)]
    ring

theorem scoreInv_initializeDriver_snd (basePoints : Int) (now : Nat) (store : Store)
    (driverId : String) (h : ∀ d ∈ store, ScoreInv basePoints d) :
    ScoreInv basePoints (initializeDriver basePoints now store driverId).2 := by
  cases hl : lookupDriver store driverId with
  | some d =>
      rw [initializeDriver_of_found hl]
      exact h d (mem_of_lookupDriver hl)
  | none =>
      rw [initializeDriver_of_absent hl]
      exact scoreInv_fresh basePoints now driverId

theorem stepOp_preserves_scoreInv (basePoints : Int) {store : Store}
    (h : ∀ d ∈ store, ScoreInv basePoints d) (op : Op) :
    ∀ d ∈ stepOp basePoints store op, ScoreInv basePoints d := by
  intro d hd
  cases op with
  | score now driverId category event points details =>
      rcases mem_setDriver hd with hmem | rfl
      · rcases mem_initializeDriver hmem with hmem' | rfl
        · exact h d hmem'
        · exact scoreInv_initializeDriver_snd basePoints now store driverId h
      · exact scoreInv_append basePoints
          (scoreInv_initializeDriver_snd basePoints now store driverId h) _
  | reset now period driverId =>
      rcases mem_setDriver hd with hmem | rfl
      · rcases mem_initializeDriver hmem with hmem' | rfl
        · exact h d hmem'
        · exact scoreInv_initializeDriver_snd basePoints now store driverId h
      · exact scoreInv_reset basePoints _ _ now
  | read now driverId =>
      rcases mem_initializeDriver hd with hmem' | rfl
      · exact h d hmem'
      · exact scoreInv_initializeDriver_snd basePoints now store driverId h

theorem foldl_stepOp_scoreInv (basePoints : Int) (ops : List Op) :
    ∀ store : Store, (∀ d ∈ store, ScoreInv basePoints d) →
      ∀ d ∈ ops.foldl (stepOp basePoints) store, ScoreInv basePoints d := by
  induction ops with
  | nil => intro store h; simpa using h
  | cons op ops ih =>
      intro store h
      rw [List.foldl_cons]
      exact ih _ (stepOp_preserves_scoreInv basePoints h op)

theorem runOps_scoreInv (basePoints : Int) (ops : List Op) :
    ∀ d ∈ runOps basePoints ops, ScoreInv basePoints d :=
  foldl_stepOp_scoreInv basePoints ops [] (by simp)

/-! ### Leaderboard lemmas -/

theorem rankEntries_map_rank :
    ∀ (l : List DriverRecord) (i : Nat),
      (rankEntries i l).map LeaderboardEntry.rank = List.range' (i + 1) l.length
  | [], _ => rfl
  | d :: ds, i => by
    rw [rankEntries, List.map_cons, List.length_cons, List.range'_succ,
      rankEntries_map_rank ds (i + 1)]

theorem mem_rankEntries {e : LeaderboardEntry} :
    ∀ {l : List DriverRecord} {i : Nat}, e ∈ rankEntries i l →
      ∃ d ∈ l, e.driverId = d.driverId ∧ e.currentScore = d.currentScore ∧
        e.eventsCount = d.events.length := by
  intro l
  induction l with
  | nil => intro i h; cases h
  | cons b bs ih =>
      intro i h
      rw [rankEntries] at h
      rcases List.mem_cons.mp h with rfl | h
      · exact ⟨b, List.mem_cons_self b bs, rfl, rfl, rfl⟩
      · rcases ih h with ⟨d, hd, he⟩
        exact ⟨d, List.mem_cons_of_mem b hd, he⟩

theorem exists_rankEntry_of_mem {d : DriverRecord} :
    ∀ {l : List DriverRecord} (i : Nat), d ∈ l →
      ∃ e ∈ rankEntries i l, e.driverId = d.driverId ∧
        e.currentScore = d.currentScore ∧ e.eventsCount = d.events.length := by
  intro l
  induction l with
  | nil => intro i h; cases h
  | cons b bs ih =>
      intro i h
      rcases List.mem_cons.mp h with rfl | h
      · exact ⟨_, List.mem_cons_self _ _, rfl, rfl, rfl⟩
      · rcases ih (i + 1) h with ⟨e, he, hprops⟩
        exact ⟨e, List.mem_cons_of_mem _ he, hprops⟩

theorem rankEntries_pairwise {l : List DriverRecord}
    (h : List.Pairwise scoreGE l) (i : Nat) :
    List.Pairwise (fun a b : LeaderboardEntry => b.currentScore ≤ a.currentScore)
      (rankEntries i l) := by
  induction h generalizing i with
  | nil => exact List.Pairwise.nil
  | cons hrel _ ih =>
      rw [rankEntries]
      refine List.Pairwise.cons ?_ (ih (i + 1))
      intro e he
      rcases mem_rankEntries he with ⟨d, hd, _, hscore, _⟩
      rw [hscore]
      exact hrel d hd

theorem filter_orderedInsert_score (a : DriverRecord) (c : Int) :
    ∀ l : List DriverRecord,
      (List.orderedInsert scoreGE a l).filter (fun x => x.currentScore == c) =
        ((a :: l).filter (fun x => x.currentScore == c))
  | [] => rfl
  | b :: bs => by
    by_cases hab : scoreGE a b
    · rw [List.orderedInsert, if_pos hab]
    · rw [List.orderedInsert, if_neg hab]
      by_cases hac : (a.currentScore == c) = true
      · have hbc : (b.currentScore == c) = false := by
          rw [Bool.eq_false_iff]
          intro hbc
          exact hab (le_of_eq (beq_iff_eq.mp hbc ▸ beq_iff_eq.mp hac ▸ rfl))
        rw [List.filter_cons, List.filter_cons, List.filter_cons, if_neg (by simp [hbc]),
          if_pos hac, if_neg (by simp [hbc]), filter_orderedInsert_score a c bs,
          List.filter_cons, if_pos hac]
      · simp [List.filter_cons, filter_orderedInsert_score a c bs, hac]

theorem filter_sortDriverScores (store : Store) (c : Int) :
    (sortDriverScores store).filter (fun x => x.currentScore == c) =
      store.filter (fun x => x.currentScore == c) := by
  induction store with
  | nil => rfl
  | cons d ds ih =>
      show (List.orderedInsert scoreGE d (List.insertionSort scoreGE ds)).filter _ = _
      rw [filter_orderedInsert_score, List.filter_cons, List.filter_cons]
      rw [show (List.insertionSort scoreGE ds).filter (fun x => x.currentScore == c) =
            ds.filter (fun x => x.currentScore == c) from ih]

/-! ### Concrete fixtures -/

/-- A run of `n` identical one-point scoring requests for driver `"d"`,
each worth `+1`, with `basePoints = 0`. -/
def capOps (n : Nat) : List Op :=
  List.replicate n (Op.score 0 "d" "GPS Monitoring" "Speed within 5% of limit" 1 [])

/-- The store after serving `capOps n` from the initial empty store. -/
def capStore (n : Nat) : Store := runOps 0 (capOps n)

/-- The first event appended by `capOps`: one point on a base score of 0, so
`scoreAfter = 1`. -/
def firstCapEvent : EventLog :=
  ⟨0, "GPS Monitoring", "Speed within 5% of limit", 1, [], 1⟩

/-- Whether event `e` is still stored in driver `"d"`'s log after `capOps n`. -/
def eventStored (n : Nat) (e : EventLog) : Bool :=
  match lookupDriver (capStore n) "d" with
  | some d => d.events.contains e
  | none => false

/-! ### Claim C1 -/

set_option maxRecDepth 100000 in
/-- C1 (counterexample): after 101 one-point scoring events for driver `"d"`
(base points 0), the driver's current score is 101 but the stored event log was
truncated to the last 100 events, whose deltas sum to 100 — so the claimed
invariant `current_score == base_points + sum(points of stored events)` is
false at this reachable state. -/
theorem C1_counterexample :
    (lookupDriver (capStore 101) "d").map
        (fun d => (d.currentScore, sumPoints d.events)) = some (101, 100) ∧
    scoreConsistentSpec 0 (capStore 101) = false := by
  constructor
  · decide
  · decide

/-- C1 (amended): with the base-points configuration held fixed, after any
sequence of event appends, resets and score reads, every driver whose stored
event list holds fewer than 100 events (i.e. whose log has not been truncated
since its last reset) has
`current_score = base_points + sum of the stored events' point deltas`.
The stored log is capped at 100 events, and once truncation occurs the stored
sum undercounts the score. -/
theorem C1_amended_score_consistency (basePoints : Int) (ops : List Op)
    (d : DriverRecord) (hd : d ∈ runOps basePoints ops)
    (hlen : d.events.length < 100) :
    d.currentScore = basePoints + sumPoints d.events :=
  (runOps_scoreInv basePoints ops d hd).2 hlen

/-- C1 (witness): one five-point event for driver `"d"` on base 0 yields the
stored record with score `0 + 5`. -/
theorem C1_amended_score_consistency_witness :
    (⟨"d", 5, 1, [], [⟨1, "c", "e", 5, [], 5⟩]⟩ : DriverRecord).currentScore =
      0 + sumPoints [⟨1, "c", "e", 5, [], 5⟩] :=
  C1_amended_score_consistency 0 [.score 1 "d" "c" "e" 5 []]
    ⟨"d", 5, 1, [], [⟨1, "c", "e", 5, [], 5⟩]⟩ (by decide) (by decide)

/-! ### Claim C2 -/

set_option maxRecDepth 100000 in
/-- C2 (counterexample): the 101st append for a driver whose log already holds
100 events leaves the stored event count at 100 — the aggregate's event
counter does not advance on that append (the oldest event is dropped
instead). `capStore 101` is exactly one further append after `capStore 100`. -/
theorem C2_counterexample :
    (lookupDriver (capStore 100) "d").map (fun d => d.events.length) = some 100 ∧
    (lookupDriver (capStore 101) "d").map (fun d => d.events.length) = some 100 ∧
    capStore 101 = stepOp 0 (capStore 100)
      (Op.score 0 "d" "GPS Monitoring" "Speed within 5% of limit" 1 []) := by
  refine ⟨by decide, by decide, by decide⟩

/-- C2 (amended): appending a scoring event with delta `points` for a driver
with stored record `d` writes `scoreAfter = d.currentScore + points` into the
new event, leaves the stored aggregate with exactly that score (increased by
exactly `points`), and advances the stored event count by one except at the
100-event cap, where it stays 100. -/
theorem C2_amended_append_updates_aggregate (basePoints : Int) (now : Nat)
    (store : Store) (driverId category event : String) (points : Int)
    (details : List (String × String)) (d : DriverRecord)
    (h : lookupDriver store driverId = some d) :
    (logScoringEvent basePoints now store driverId category event points
        details).2.scoreAfter = d.currentScore + points ∧
    ∃ d', lookupDriver
        (logScoringEvent basePoints now store driverId category event points
          details).1 driverId = some d' ∧
      d'.currentScore = d.currentScore + points ∧
      d'.events.length = min (d.events.length + 1) 100 := by
  have hinit : (initializeDriver basePoints now store driverId).2 = d := by
    rw [initializeDriver_of_found h]
  obtain ⟨he, hl⟩ :=
    logScoringEvent_spec basePoints now store driverId category event points details
  refine ⟨by rw [he, hinit], ⟨_, hl, by rw [hinit], ?_⟩⟩
  show (truncate100 ((initializeDriver basePoints now store driverId).2.events ++
      [(logScoringEvent basePoints now store driverId category event points
        details).2])).length = min (d.events.length + 1) 100
  rw [hinit, truncate100_length, List.length_append, List.length_cons,
    List.length_nil]

/-- C2 (witness): appending 4 points for a driver stored with score 3 and no
events writes `scoreAfter = 3 + 4` and stores score `3 + 4` with one event. -/
theorem C2_amended_append_updates_aggregate_witness :
    (logScoringEvent 0 2 [⟨"d", 3, 0, [], []⟩] "d" "c" "e" 4 []).2.scoreAfter =
      3 + 4 ∧
    ∃ d', lookupDriver (logScoringEvent 0 2 [⟨"d", 3, 0, [], []⟩] "d" "c" "e" 4
        []).1 "d" = some d' ∧
      d'.currentScore = 3 + 4 ∧ d'.events.length = min (0 + 1) 100 :=
  C2_amended_append_updates_aggregate 0 2 [⟨"d", 3, 0, [], []⟩] "d" "c" "e" 4 []
    ⟨"d", 3, 0, [], []⟩ (by decide)

/-! ### Claim C3 -/

/-- C3: resetting a stored driver archives a new `ScoreHistoryEntry` whose
`finalScore` is the pre-reset current score and whose `eventsCount` is the
pre-reset stored event count, and afterwards the driver's current score is the
configured base points, its event list is empty, and its last-reset timestamp
is set to the reset time. -/
theorem C3_reset_archival (basePoints : Int) (now : Nat) (period : String)
    (store : Store) (driverId : String) (d : DriverRecord)
    (h : lookupDriver store driverId = some d) :
    ∃ d', lookupDriver (resetDriver basePoints now period store driverId).1
        driverId = some d' ∧
      d'.scoreHistory =
        d.scoreHistory ++ [⟨period, d.currentScore, now, d.events.length⟩] ∧
      d'.currentScore = basePoints ∧ d'.events = [] ∧ d'.lastReset = now := by
  have hinit : (initializeDriver basePoints now store driverId).2 = d := by
    rw [initializeDriver_of_found h]
  refine ⟨_, (resetDriver_spec basePoints now period store driverId).2,
    ?_, rfl, rfl, rfl⟩
  show (initializeDriver basePoints now store driverId).2.scoreHistory ++
      [⟨period, (initializeDriver basePoints now store driverId).2.currentScore,
        now, (initializeDriver basePoints now store driverId).2.events.length⟩] =
    d.scoreHistory ++ [⟨period, d.currentScore, now, d.events.length⟩]
  rw [hinit]

/-- C3 (witness): resetting driver `"d"` stored with score 7, one event and one
prior history entry archives `⟨"2025-10", 7, 9, 1⟩` and clears the record. -/
theorem C3_reset_archival_witness :
    ∃ d', lookupDriver (resetDriver 0 9 "2025-10"
        [⟨"d", 7, 0, [⟨"p0", 1, 0, 2⟩], [⟨0, "c", "e", 7, [], 7⟩]⟩] "d").1
        "d" = some d' ∧
      d'.scoreHistory = [⟨"p0", 1, 0, 2⟩] ++ [⟨"2025-10", 7, 9, 1⟩] ∧
      d'.currentScore = 0 ∧ d'.events = [] ∧ d'.lastReset = 9 :=
  C3_reset_archival 0 9 "2025-10"
    [⟨"d", 7, 0, [⟨"p0", 1, 0, 2⟩], [⟨0, "c", "e", 7, [], 7⟩]⟩] "d"
    ⟨"d", 7, 0, [⟨"p0", 1, 0, 2⟩], [⟨0, "c", "e", 7, [], 7⟩]⟩ (by decide)

/-! ### Claim C4 -/

set_option maxRecDepth 100000 in
/-- C4 (counterexample): the first event appended for driver `"d"` is still
stored after 100 appends but is gone after the 101st append — the log is not
preserved unchanged by every subsequent append; the oldest entry is deleted
once the 100-event cap is exceeded. -/
theorem C4_counterexample :
    eventStored 100 firstCapEvent = true ∧
    eventStored 101 firstCapEvent = false := by
  constructor
  · decide
  · decide

/-- C4 (amended): stored events are never mutated in place, and as long as the
driver's stored log holds fewer than 100 events an append preserves every
previously stored event exactly: the new log is the old log with the new event
appended at the end.  (At the cap, the oldest events are dropped; only the most
recent 100 are retained.) -/
theorem C4_amended_append_preserves (basePoints : Int) (now : Nat)
    (store : Store) (driverId category event : String) (points : Int)
    (details : List (String × String)) (d : DriverRecord)
    (h : lookupDriver store driverId = some d) (hlen : d.events.length < 100) :
    ∃ d', lookupDriver
        (logScoringEvent basePoints now store driverId category event points
          details).1 driverId = some d' ∧
      d'.events = d.events ++
        [(logScoringEvent basePoints now store driverId category event points
            details).2] := by
  have hinit : (initializeDriver basePoints now store driverId).2 = d := by
    rw [initializeDriver_of_found h]
  refine ⟨_, (logScoringEvent_spec basePoints now store driverId category event
    points details).2, ?_⟩
  show truncate100 ((initializeDriver basePoints now store driverId).2.events ++
      [(logScoringEvent basePoints now store driverId category event points
          details).2]) =
    d.events ++ [(logScoringEvent basePoints now store driverId category event
      points details).2]
  rw [hinit]
  exact truncate100_of_le
    (by rw [List.length_append, List.length_cons, List.length_nil]; omega)

/-- C4 (witness): a second append for a driver holding one stored event keeps
that event unchanged and appends the new one. -/
theorem C4_amended_append_preserves_witness :
    ∃ d', lookupDriver (logScoringEvent 0 5
        [⟨"d", 3, 0, [], [⟨0, "c", "e", 3, [], 3⟩]⟩] "d" "c2" "e2" 2 []).1
        "d" = some d' ∧
      d'.events = [⟨0, "c", "e", 3, [], 3⟩] ++ [⟨5, "c2", "e2", 2, [], 5⟩] :=
  C4_amended_append_preserves 0 5 [⟨"d", 3, 0, [], [⟨0, "c", "e", 3, [], 3⟩]⟩]
    "d" "c2" "e2" 2 [] ⟨"d", 3, 0, [], [⟨0, "c", "e", 3, [], 3⟩]⟩
    (by decide) (by decide)

/-! ### Claim C5 -/

/-- C5 (counterexample): invoking the reset route for the unknown driver
`"ghost"` on an empty store does not fail — it creates a brand-new aggregate
(initialized to the base points and immediately archived with
`finalScore = basePoints` and `eventsCount = 0`) and mutates the store. -/
theorem C5_counterexample :
    lookupDriver (resetDriver 0 5 "2025-10" [] "ghost").1 "ghost" =
      some ⟨"ghost", 0, 5, [⟨"2025-10", 0, 5, 0⟩], []⟩ ∧
    (resetDriver 0 5 "2025-10" [] "ghost").1 ≠ [] := by
  constructor
  · decide
  · decide

/-- C5 (amended): the reset route never fails: for a driver identifier with no
existing aggregate it lazily creates one (via `initializeDriver`), archives a
history entry with `finalScore = basePoints` and `eventsCount = 0`, and appends
the reset aggregate to the store. -/
theorem C5_amended_reset_creates (basePoints : Int) (now : Nat) (period : String)
    (store : Store) (driverId : String)
    (h : lookupDriver store driverId = none) :
    (resetDriver basePoints now period store driverId).1 =
      store ++ [⟨driverId, basePoints, now, [⟨period, basePoints, now, 0⟩], []⟩] := by
  show setDriver (initializeDriver basePoints now store driverId).1 driverId
      _ = _
  rw [initializeDriver_of_absent h]
  exact setDriver_append_of_absent _ _ h rfl

/-- C5 (witness): resetting the unknown driver `"ghost"` on a one-driver store
appends a fresh reset aggregate for `"ghost"`. -/
theorem C5_amended_reset_creates_witness :
    (resetDriver 0 5 "p" [⟨"a", 1, 0, [], []⟩] "ghost").1 =
      [⟨"a", 1, 0, [], []⟩] ++ [⟨"ghost", 0, 5, [⟨"p", 0, 5, 0⟩], []⟩] :=
  C5_amended_reset_creates 0 5 "p" [⟨"a", 1, 0, [], []⟩] "ghost" (by decide)

/-! ### Claim C6 -/

/-- A store reached by reading the scores of driver `"b"` and then driver
`"a"` (both lazily initialized at base points 0), so `"b"` precedes `"a"` in
insertion order while both are tied on score. -/
def storeBA : Store :=
  (initializeDriver 0 0 (initializeDriver 0 0 [] "b").1 "a").1

/-- C6 (counterexample): with drivers `"b"` and `"a"` tied at score 0 (and
`"b"` inserted first), the leaderboard lists `"b"` before `"a"` — ties are NOT
broken by driver identifier ascending, which would require `["a", "b"]`. -/
theorem C6_counterexample :
    (leaderboardOf storeBA).map (fun e => (e.rank, e.driverId)) =
      [(1, "b"), (2, "a")] ∧
    (leaderboardOf storeBA).map LeaderboardEntry.driverId ≠ ["a", "b"] := by
  constructor
  · decide
  · decide

/-- C6 (amended): the leaderboard is sorted by `currentScore` descending, each
entry's rank is its 1-based position (so ranks are exactly `1..N`, with tied
scores receiving distinct sequential ranks), and the output is a deterministic
function of the store: the sort is stable, so tied drivers appear in store
(key-insertion) order — the tie-break is insertion order, not driver
identifier ascending.  Stability is expressed by the filter equation: for any
score value `c`, the tied drivers at `c` appear in exactly their store
order. -/
theorem C6_amended_leaderboard (store : Store) (c : Int) :
    (leaderboardOf store).map LeaderboardEntry.rank =
      List.range' 1 store.length ∧
    List.Pairwise (fun a b : LeaderboardEntry => b.currentScore ≤ a.currentScore)
      (leaderboardOf store) ∧
    (sortDriverScores store).Perm store ∧
    (sortDriverScores store).filter (fun x => x.currentScore == c) =
      store.filter (fun x => x.currentScore == c) := by
  refine ⟨?_, ?_, List.perm_insertionSort scoreGE store,
    filter_sortDriverScores store c⟩
  · rw [leaderboardOf, rankEntries_map_rank]
    rw [show (sortDriverScores store).length = store.length from
      List.length_insertionSort scoreGE store]
  · exact rankEntries_pairwise (List.sorted_insertionSort scoreGE store) 0

/-! ### Claim C7 -/

/-- C7 (counterexample): a request in which all four of `driverId`,
`category`, `event` and `points` are present — but `category` is the (falsy)
empty string — is rejected with a 400 and nothing is appended, contradicting
the claim that the event is appended whenever all four fields are present. -/
theorem C7_counterexample :
    (⟨some "d1", some "", some "e1", some 5, none⟩ :
        CustomScoringRequest).driverId.isSome = true ∧
    (⟨some "d1", some "", some "e1", some 5, none⟩ :
        CustomScoringRequest).category.isSome = true ∧
    (⟨some "d1", some "", some "e1", some 5, none⟩ :
        CustomScoringRequest).event.isSome = true ∧
    (⟨some "d1", some "", some "e1", some 5, none⟩ :
        CustomScoringRequest).points.isSome = true ∧
    customScoringRoute 0 0 [] ⟨some "d1", some "", some "e1", some 5, none⟩ =
      ([], none) := by
  refine ⟨rfl, rfl, rfl, rfl, by decide⟩

/-- C7 (amended): the custom scoring route fails with a 400 validation error
and mutates nothing whenever `driverId`, `category` or `event` is absent or
the empty string, or `points` is absent; when `driverId`, `category` and
`event` are present and non-empty and `points` is present (any integer,
including 0), it appends the event, which carries the request's category,
event name and points and is stored in the driver's log. -/
theorem C7_amended_validation (basePoints : Int) (now : Nat) (store : Store)
    (req : CustomScoringRequest) :
    ((jsFalsyStr req.driverId || jsFalsyStr req.category || jsFalsyStr req.event
        || req.points.isNone) = true →
      customScoringRoute basePoints now store req = (store, none)) ∧
    (∀ did cat ev p, req.driverId = some did → did ≠ "" →
      req.category = some cat → cat ≠ "" → req.event = some ev → ev ≠ "" →
      req.points = some p →
      ∃ e d', (customScoringRoute basePoints now store req).2 = some e ∧
        e.category = cat ∧ e.event = ev ∧ e.points = p ∧
        lookupDriver (customScoringRoute basePoints now store req).1 did =
          some d' ∧ e ∈ d'.events) := by
  constructor
  · intro hcond
    unfold customScoringRoute
    rw [if_pos hcond]
  · intro did cat ev p hdid hne1 hcat hne2 hev hne3 hp
    have hroute : customScoringRoute basePoints now store req =
        ((logScoringEvent basePoints now store did cat ev p
            (req.details.getD [])).1,
         some (logScoringEvent basePoints now store did cat ev p
            (req.details.getD [])).2) := by
      have hcond : (jsFalsyStr (some did) || jsFalsyStr (some cat) ||
          jsFalsyStr (some ev) || (some p : Option Int).isNone) = false := by
        simp [jsFalsyStr, hne1, hne2, hne3]
      unfold customScoringRoute
      rw [hdid, hcat, hev, hp, if_neg (by rw [hcond]; exact Bool.false_ne_true)]
      simp only [Option.getD_some]
    obtain ⟨he, hl⟩ :=
      logScoringEvent_spec basePoints now store did cat ev p (req.details.getD [])
    refine ⟨_, _, by rw [hroute], by rw [he], by rw [he], by rw [he],
      by rw [hroute]; exact hl, self_mem_truncate100 _ _⟩

/-- C7 (witness): a fully populated request (driver `"d7"`, category
`"Compliance"`, event `"Pre-trip"`, 3 points) is appended and stored. -/
theorem C7_amended_validation_witness :
    ∃ e d', (customScoringRoute 0 0 []
        ⟨some "d7", some "Compliance", some "Pre-trip", some 3, none⟩).2 =
        some e ∧
      e.category = "Compliance" ∧ e.event = "Pre-trip" ∧ e.points = 3 ∧
      lookupDriver (customScoringRoute 0 0 []
        ⟨some "d7", some "Compliance", some "Pre-trip", some 3, none⟩).1 "d7" =
        some d' ∧ e ∈ d'.events :=
  (C7_amended_validation 0 0 []
      ⟨some "d7", some "Compliance", some "Pre-trip", some 3, none⟩).2
    "d7" "Compliance" "Pre-trip" 3 rfl (by decide) rfl (by decide) rfl
    (by decide) rfl

/-! ### Claim C8 -/

/-- C8: reading the score of a driver that has never been scored always
succeeds and returns a freshly materialized aggregate whose current score is
the configured base points, whose event list is empty (event count 0) and
whose score history is empty. -/
theorem C8_get_score_fresh (basePoints : Int) (now : Nat) (store : Store)
    (driverId : String) (h : lookupDriver store driverId = none) :
    (getScoreRoute basePoints now store driverId).2 =
      ⟨driverId, basePoints, now, [], []⟩ := by
  show (initializeDriver basePoints now store driverId).2 = _
  rw [initializeDriver_of_absent h]

/-- C8 (witness): reading the never-scored driver `"n1"` on an empty store at
base points 0 returns the fresh zeroed aggregate. -/
theorem C8_get_score_fresh_witness :
    (getScoreRoute 0 4 [] "n1").2 = ⟨"n1", 0, 4, [], []⟩ :=
  C8_get_score_fresh 0 4 [] "n1" (by decide)

/-! ### Claim C9 -/

/-- A helper: appending a fresh record keyed by a previously absent driver id
makes it the lookup result for that id. -/
theorem lookupDriver_append_fresh {store : Store} {driverId : String}
    (h : lookupDriver store driverId = none) (f : DriverRecord)
    (hf : f.driverId = driverId) :
    lookupDriver (store ++ [f]) driverId = some f := by
  have h' : store.find? (fun x => x.driverId == driverId) = none := h
  simp [lookupDriver, List.find?_append, h', hf]

/-- C9: reading a score is not side-effect free: a single `getScore` for a
driver id absent from the store inserts a persistent aggregate for it, so the
driver subsequently appears in `listAllScores` and in the leaderboard with
score equal to the base points and event count 0, despite no scoring event
ever being applied. -/
theorem C9_read_materializes (basePoints : Int) (now : Nat) (store : Store)
    (driverId : String) (h : lookupDriver store driverId = none) :
    lookupDriver (getScoreRoute basePoints now store driverId).1 driverId =
      some ⟨driverId, basePoints, now, [], []⟩ ∧
    (⟨driverId, basePoints, now, [], []⟩ : DriverRecord) ∈
      listAllScores (getScoreRoute basePoints now store driverId).1 ∧
    ∃ e ∈ leaderboardOf (getScoreRoute basePoints now store driverId).1,
      e.driverId = driverId ∧ e.currentScore = basePoints ∧ e.eventsCount = 0 := by
  have hroute : (getScoreRoute basePoints now store driverId).1 =
      store ++ [⟨driverId, basePoints, now, [], []⟩] := by
    show (initializeDriver basePoints now store driverId).1 = _
    rw [initializeDriver_of_absent h]
  refine ⟨?_, ?_, ?_⟩
  · rw [hroute]
    exact lookupDriver_append_fresh h _ rfl
  · rw [hroute]
    simp [listAllScores]
  · rw [hroute]
    have hmem : (⟨driverId, basePoints, now, [], []⟩ : DriverRecord) ∈
        sortDriverScores (store ++ [⟨driverId, basePoints, now, [], []⟩]) :=
      (List.mem_insertionSort scoreGE).mpr
        (List.mem_append_right _ (by simp))
    rcases exists_rankEntry_of_mem 0 hmem with ⟨e, he, h1, h2, h3⟩
    exact ⟨e, he, h1, h2, h3⟩

/-- C9 (witness): reading the absent driver `"n2"` on a one-driver store
materializes it in the store, in `listAllScores` and on the leaderboard. -/
theorem C9_read_materializes_witness :
    lookupDriver (getScoreRoute 0 3 [⟨"a", 9, 0, [], []⟩] "n2").1 "n2" =
      some ⟨"n2", 0, 3, [], []⟩ ∧
    (⟨"n2", 0, 3, [], []⟩ : DriverRecord) ∈
      listAllScores (getScoreRoute 0 3 [⟨"a", 9, 0, [], []⟩] "n2").1 ∧
    ∃ e ∈ leaderboardOf (getScoreRoute 0 3 [⟨"a", 9, 0, [], []⟩] "n2").1,
      e.driverId = "n2" ∧ e.currentScore = 0 ∧ e.eventsCount = 0 :=
  C9_read_materializes 0 3 [⟨"a", 9, 0, [], []⟩] "n2" (by decide)

/-! ### Claim C10 -/

/-- C10: the scoring-configuration update rejects with a 400 — leaving the
configuration unchanged — every request whose `basePoints` is 0 or absent
(falsy), regardless of which sections are supplied; in particular the
documented default base of 0 can never be explicitly resubmitted. -/
theorem C10_base_points_zero_rejected (config : ScoringConfig)
    (req : ConfigRequest)
    (h : req.basePoints = some 0 ∨ req.basePoints = none) :
    updateScoringConfig config req = (config, false) := by
  have hfalse : jsTruthyInt req.basePoints = false := by
    rcases h with h | h <;> simp [jsTruthyInt, h]
  unfold updateScoringConfig
  rw [if_neg (by simp [hfalse])]

/-- C10 (witness): a request supplying all five category sections (copies of
the defaults) and an explicit `basePoints = 0` is rejected and the default
configuration is unchanged. -/
theorem C10_base_points_zero_rejected_witness :
    updateScoringConfig defaultScoringConfig
      ⟨some defaultScoringConfig.gpsMonitoring,
       some defaultScoringConfig.driverMonitoring,
       some defaultScoringConfig.safetyEmergency,
       some defaultScoringConfig.compliance,
       some defaultScoringConfig.achievements, none, some 0⟩ =
      (defaultScoringConfig, false) :=
  C10_base_points_zero_rejected defaultScoringConfig
    ⟨some defaultScoringConfig.gpsMonitoring,
     some defaultScoringConfig.driverMonitoring,
     some defaultScoringConfig.safetyEmergency,
     some defaultScoringConfig.compliance,
     some defaultScoringConfig.achievements, none, some 0⟩ (Or.inl rfl)

end Gamification
